import Mathlib

/-!
Verification of the core workflow-service logic of the Multi-Industry
ERPNext Coagents repository: the workflow registry's initial-state
validation, the hotel order-to-cash graph and its interrupt/resume drive,
the AG-UI stream adapter and SSE framing, the Redis checkpoint store's
latest-checkpoint lookup, the approval gate's null-resume default, the
retry-with-backoff loop, and the HTTP resume endpoint.

Each definition is a shallow embedding of the corresponding Python
function in `services/workflows/src`; doc comments name the source.
-/

namespace ERPNextWorkflows

/-! ### Python value model

JSON-like Python values as they flow through the workflow state dicts.
Float payloads are abstracted to a tag (no claim depends on a float's
value); `vBool` is kept separate but counts as numeric for `isinstance`
checks, mirroring `bool` being a subclass of `int` in Python. -/

mutual

inductive PyVal where
  | vStr (s : String)
  | vInt (n : Int)
  | vFloat
  | vBool (b : Bool)
  | vList (xs : PyList)
  | vDict (d : PyObj)
  | vNone
deriving DecidableEq

inductive PyList where
  | nil
  | cons (hd : PyVal) (tl : PyList)
deriving DecidableEq

inductive PyObj where
  | nil
  | cons (k : String) (v : PyVal) (tl : PyObj)
deriving DecidableEq

end

/-- `type(value).__name__` for the values we model. -/
def PyVal.typeName : PyVal → String
  | .vStr _ => "str"
  | .vInt _ => "int"
  | .vFloat => "float"
  | .vBool _ => "bool"
  | .vList _ => "list"
  | .vDict _ => "dict"
  | .vNone => "NoneType"

/-- `isinstance(value, str)`. -/
def PyVal.isStrV : PyVal → Bool
  | .vStr _ => true
  | _ => false

/-- `isinstance(value, (int, float))`; `bool` is a subclass of `int`. -/
def PyVal.isNumV : PyVal → Bool
  | .vInt _ => true
  | .vFloat => true
  | .vBool _ => true
  | _ => false

/-- `isinstance(value, list)`. -/
def PyVal.isListV : PyVal → Bool
  | .vList _ => true
  | _ => false

/-- A Python dict with string keys: `PyObj` is an insertion-ordered
sequence of bindings with unique keys maintained by `dictSet`. -/
abbrev PyDict := PyObj

/-- Dict key lookup (`d[k]` / `d.get(k)`), first binding wins. -/
def dictLookup (d : PyDict) (k : String) : Option PyVal :=
  match d with
  | .nil => none
  | .cons k' v rest => if k' = k then some v else dictLookup rest k

/-- `k in d`. -/
def dictContains (d : PyDict) (k : String) : Bool :=
  (dictLookup d k).isSome

/-- `d[k] = v`: replace the existing binding or append a new one. -/
def dictSet (d : PyDict) (k : String) (v : PyVal) : PyDict :=
  match d with
  | .nil => .cons k v .nil
  | .cons k' v' rest => if k' = k then .cons k' v rest else .cons k' v' (dictSet rest k v)

/-! ### Workflow registry (`core/registry.py`)

`WorkflowGraphMetadata` keeps the fields the verified claims touch
(name, module path, industry, schema, estimated steps); capabilities and
tags are omitted as no claim mentions them. -/

structure WorkflowGraphMetadata where
  name : String
  module_path : String
  industry : String
  initial_state_schema : List (String × String)
  estimated_steps : Nat
deriving DecidableEq

/-- The `hotel_o2c` entry of `WorkflowRegistry.WORKFLOWS`. -/
def hotelO2CMetadata : WorkflowGraphMetadata :=
  { name := "hotel_o2c"
    module_path := "hotel.o2c_graph"
    industry := "hotel"
    initial_state_schema :=
      [ ("reservation_id", "str"), ("guest_name", "str"), ("room_number", "str"),
        ("check_in_date", "str"), ("check_out_date", "str") ]
    estimated_steps := 5 }

/-- The `hospital_admissions` entry of `WorkflowRegistry.WORKFLOWS`. -/
def hospitalAdmissionsMetadata : WorkflowGraphMetadata :=
  { name := "hospital_admissions"
    module_path := "hospital.admissions_graph"
    industry := "hospital"
    initial_state_schema :=
      [ ("patient_name", "str"), ("admission_date", "str"),
        ("primary_diagnosis", "str"), ("clinical_protocol", "str (optional)") ]
    estimated_steps := 6 }

/-- The `manufacturing_production` entry of `WorkflowRegistry.WORKFLOWS`. -/
def manufacturingProductionMetadata : WorkflowGraphMetadata :=
  { name := "manufacturing_production"
    module_path := "manufacturing.production_graph"
    industry := "manufacturing"
    initial_state_schema :=
      [ ("item_code", "str"), ("item_name", "str"), ("qty_to_produce", "float"),
        ("production_date", "str"), ("warehouse", "str") ]
    estimated_steps := 5 }

/-- The `retail_fulfillment` entry of `WorkflowRegistry.WORKFLOWS`. -/
def retailFulfillmentMetadata : WorkflowGraphMetadata :=
  { name := "retail_fulfillment"
    module_path := "retail.fulfillment_graph"
    industry := "retail"
    initial_state_schema :=
      [ ("customer_name", "str"), ("customer_id", "str"), ("order_items", "list[dict]"),
        ("delivery_date", "str"), ("warehouse", "str") ]
    estimated_steps := 5 }

/-- The `education_admissions` entry of `WorkflowRegistry.WORKFLOWS`. -/
def educationAdmissionsMetadata : WorkflowGraphMetadata :=
  { name := "education_admissions"
    module_path := "education.admissions_graph"
    industry := "education"
    initial_state_schema :=
      [ ("applicant_name", "str"), ("applicant_email", "str"), ("program_name", "str"),
        ("application_date", "str"), ("academic_score", "float") ]
    estimated_steps := 5 }

/-- The static `WorkflowRegistry.WORKFLOWS` table. -/
def WORKFLOWS : List (String × WorkflowGraphMetadata) :=
  [ ("hotel_o2c", hotelO2CMetadata),
    ("hospital_admissions", hospitalAdmissionsMetadata),
    ("manufacturing_production", manufacturingProductionMetadata),
    ("retail_fulfillment", retailFulfillmentMetadata),
    ("education_admissions", educationAdmissionsMetadata) ]

/-- `WorkflowRegistry.get_workflow_metadata`. -/
def getWorkflowMetadata (graph_name : String) : Option WorkflowGraphMetadata :=
  (WORKFLOWS.find? (fun p => p.1 = graph_name)).map (·.2)

/-- Is `pat` a prefix of `l`? -/
def listIsPrefix : List Char → List Char → Bool
  | [], _ => true
  | _ :: _, [] => false
  | p :: ps, c :: cs => p == c && listIsPrefix ps cs

/-- Does `pat` occur as a contiguous sublist of `hay`? -/
def subOcc : List Char → List Char → Bool
  | [], pat => pat.isEmpty
  | c :: t, pat => listIsPrefix pat (c :: t) || subOcc t pat

/-- Python's `pat in s` substring test. -/
def strContainsSub (s pat : String) : Bool :=
  subOcc s.data pat.data

/-- `s.startswith(pat)`. -/
def strStartsWith (s pat : String) : Bool :=
  listIsPrefix pat.data s.data

/-- A character `str.strip()` removes (the hints only ever carry plain
spaces). -/
def isSpaceChar (c : Char) : Bool :=
  c == ' ' || c == '\t' || c == '\n' || c == '\r'

/-- `l.strip()` on a character list. -/
def listTrim (l : List Char) : List Char :=
  ((l.dropWhile isSpaceChar).reverse.dropWhile isSpaceChar).reverse

/-- `type_str.split("(")[0].strip()`: the (stripped) prefix before the
first `(`, or the whole string when there is none. -/
def baseTypeOf (type_str : String) : String :=
  String.mk (listTrim (type_str.data.takeWhile (fun c => c != '(')))

/-- `", ".join(l)`. -/
def joinComma : List String → String
  | [] => ""
  | [x] => x
  | x :: rest => x ++ ", " ++ joinComma rest

/-- The required fields of a schema: those whose type hint lacks the
`"(optional)"` marker, in schema order. -/
def requiredFields (schema : List (String × String)) : List String :=
  (schema.filter (fun ft => !(strContainsSub ft.2 "(optional)"))).map (·.1)

/-- The required fields absent from the input state, in schema order. -/
def missingRequired (schema : List (String × String)) (st : PyDict) : List String :=
  (requiredFields schema).filter (fun f => !(dictContains st f))

/-- The type-hint validation loop of `validate_initial_state`: first
mismatch wins; fields absent from the input are skipped. -/
def typeCheck (schema : List (String × String)) (st : PyDict) : Option String :=
  match schema with
  | [] => none
  | (f, t) :: rest =>
    match dictLookup st f with
    | none => typeCheck rest st
    | some v =>
      let bt := baseTypeOf t
      if bt = "str" && !(v.isStrV) then
        some ("Field \x27" ++ f ++ "\x27 must be a string, got " ++ v.typeName)
      else if bt = "float" && !(v.isNumV) then
        some ("Field \x27" ++ f ++ "\x27 must be numeric, got " ++ v.typeName)
      else if strStartsWith bt "list" && !(v.isListV) then
        some ("Field \x27" ++ f ++ "\x27 must be a list, got " ++ v.typeName)
      else typeCheck rest st

/-- The base shared state fields checked by `validate_initial_state`
(`base_fields` is a Python set; its iteration order does not affect the
resulting mapping, so a fixed order is used here). -/
def baseFields : List String :=
  ["messages", "session_id", "step_count", "current_node", "error"]

/-- Default written for a missing base field: `messages` gets `[]`,
`step_count` gets `0`, every other base field gets `None`. -/
def baseDefault (f : String) : PyVal :=
  if f = "messages" then .vList .nil
  else if f = "step_count" then .vInt 0
  else .vNone

/-- One step of the auto-population loop: write the default for `f`
when `f` was absent from the original input `st`. -/
def popStep (st : PyDict) (d : PyDict) (f : String) : PyDict :=
  if dictContains st f then d else dictSet d f (baseDefault f)

/-- The auto-population pass: every base field absent from the original
input is written into the dict with its default. -/
def populateBase (st : PyDict) : PyDict :=
  baseFields.foldl (popStep st) st

/-- `WorkflowRegistry.validate_initial_state`.  The Python function
mutates its `initial_state` argument in place; the embedding returns the
(possibly updated) dict alongside the `(is_valid, error_message)` pair. -/
def validate_initial_state (graph_name : String) (st : PyDict) :
    PyDict × Bool × Option String :=
  match getWorkflowMetadata graph_name with
  | none => (st, false, some ("Unknown workflow: " ++ graph_name))
  | some md =>
    let missing := missingRequired md.initial_state_schema st
    if missing = [] then
      match typeCheck md.initial_state_schema st with
      | some msg => (st, false, some msg)
      | none => (populateBase st, true, none)
    else
      (st, false, some ("Missing required fields: " ++ joinComma missing))

/-! ### Hotel order-to-cash graph (`hotel/o2c_graph.py`)

The `HotelO2CState` TypedDict, its node bodies, and the static edges of
`create_graph`.  The LangGraph drive is embedded per the library's
documented interrupt/resume semantics, which the spec restates (§4.2):
a node calling `interrupt` with no pending resume value suspends the run
at that node; `Command(resume=decision)` re-executes the suspended node
with the decision as the interrupt call's return value; `Command(goto=…)`
routes to the named node, merging only the keys listed in `update`;
nodes without a routing command advance along the static edge.
Interrupt payload details and preview strings are not carried: no edge
of the drive depends on them, only on which node suspended. -/

structure O2CError where
  step : String
  reason : String
deriving DecidableEq

structure HotelO2CState where
  reservation_id : String
  guest_name : String
  room_number : String
  check_in_date : String
  check_out_date : String
  folio_id : Option String
  invoice_id : Option String
  current_step : String
  steps_completed : List String
  errors : List O2CError
  pending_approval : Bool
  approval_decision : Option String
deriving DecidableEq

/-- What one node body produces: a routing command with a partial state
update already merged (`Command(goto=…, update=…)`), a full replacement
state (plain dict return), or a suspension at an `interrupt` call. -/
inductive NodeStep where
  | cmd (goto : String) (s : HotelO2CState)
  | state (s : HotelO2CState)
  | suspend (operation : String)
deriving DecidableEq

/-- `check_in_guest`: interrupts for approval; on `"approve"` routes to
`create_folio` appending `"check_in"`, otherwise routes to
`workflow_rejected` recording the rejection error. -/
def check_in_guest (resume? : Option String) (s : HotelO2CState) : NodeStep :=
  match resume? with
  | none => .suspend "check_in_guest"
  | some decision =>
    if decision = "approve" then
      .cmd "create_folio"
        { s with
          steps_completed := s.steps_completed ++ ["check_in"]
          current_step := "create_folio"
          approval_decision := some "approved"
          pending_approval := false }
    else
      .cmd "workflow_rejected"
        { s with
          errors := s.errors ++ [{ step := "check_in", reason := "User rejected check-in" }]
          approval_decision := some "rejected"
          pending_approval := false }

/-- `create_folio`: automatic step, sets folio id and advances. -/
def create_folio (s : HotelO2CState) : NodeStep :=
  .state
    { s with
      folio_id := some ("FO-" ++ s.reservation_id)
      steps_completed := s.steps_completed ++ ["create_folio"]
      current_step := "add_charges" }

/-- `add_charges`: automatic step (the computed charges are local to the
Python function and not stored in state). -/
def add_charges (s : HotelO2CState) : NodeStep :=
  .state
    { s with
      steps_completed := s.steps_completed ++ ["add_charges"]
      current_step := "check_out_guest" }

/-- `check_out_guest`: automatic step. -/
def check_out_guest (s : HotelO2CState) : NodeStep :=
  .state
    { s with
      steps_completed := s.steps_completed ++ ["check_out"]
      current_step := "generate_invoice" }

/-- `generate_invoice`: interrupts for approval; on `"approve"` routes to
`workflow_completed` setting the invoice id, otherwise to
`workflow_rejected`. -/
def generate_invoice (resume? : Option String) (s : HotelO2CState) : NodeStep :=
  match resume? with
  | none => .suspend "generate_invoice"
  | some decision =>
    if decision = "approve" then
      .cmd "workflow_completed"
        { s with
          invoice_id := some ("INV-" ++ s.reservation_id)
          steps_completed := s.steps_completed ++ ["generate_invoice"]
          current_step := "completed"
          approval_decision := some "approved"
          pending_approval := false }
    else
      .cmd "workflow_rejected"
        { s with
          errors := s.errors ++ [{ step := "generate_invoice", reason := "User rejected invoice" }]
          approval_decision := some "rejected"
          pending_approval := false }

/-- Terminal node `workflow_completed`. -/
def workflow_completed (s : HotelO2CState) : NodeStep :=
  .state { s with current_step := "completed" }

/-- Terminal node `workflow_rejected`. -/
def workflow_rejected (s : HotelO2CState) : NodeStep :=
  .state { s with current_step := "rejected" }

/-- Node dispatch table of `create_graph`; the resume value reaches the
interrupt call of the dispatched node only. -/
def dispatchO2C (node : String) (resume? : Option String) (s : HotelO2CState) :
    Option NodeStep :=
  if node = "check_in_guest" then some (check_in_guest resume? s)
  else if node = "create_folio" then some (create_folio s)
  else if node = "add_charges" then some (add_charges s)
  else if node = "check_out_guest" then some (check_out_guest s)
  else if node = "generate_invoice" then some (generate_invoice resume? s)
  else if node = "workflow_completed" then some (workflow_completed s)
  else if node = "workflow_rejected" then some (workflow_rejected s)
  else none

/-- Static edges added by `create_graph`; `none` means the node's edge
goes to `END`.  `check_in_guest` and `generate_invoice` route via
`Command(goto=…)` and have no static successor. -/
def edgeAfterO2C (node : String) : Option String :=
  if node = "create_folio" then some "add_charges"
  else if node = "add_charges" then some "check_out_guest"
  else if node = "check_out_guest" then some "generate_invoice"
  else none

/-- Outcome of driving the compiled graph: paused at an interrupt, run
to `END`, or failed (unknown node / recursion limit exhausted). -/
inductive O2COutcome where
  | paused (node : String) (s : HotelO2CState)
  | done (s : HotelO2CState)
  | failed (reason : String)
deriving DecidableEq

/-- Drive the graph from `node`, delivering `resume?` to the first
dispatched node, bounded by `fuel` dispatches (the recursion limit). -/
def driveO2C (fuel : Nat) (node : String) (resume? : Option String)
    (s : HotelO2CState) : O2COutcome :=
  match fuel with
  | 0 => .failed "recursion limit exceeded"
  | fuel' + 1 =>
    match dispatchO2C node resume? s with
    | none => .failed ("unknown node: " ++ node)
    | some (.suspend _) => .paused node s
    | some (.cmd goto s') => driveO2C fuel' goto none s'
    | some (.state s') =>
      match edgeAfterO2C node with
      | some nxt => driveO2C fuel' nxt none s'
      | none => .done s'

/-- `graph.ainvoke(initial_state, config)` from `START`: the entry edge
goes to `check_in_guest`.  The recursion limit used by the non-streaming
`/execute` path is 30. -/
def executeO2C (s : HotelO2CState) : O2COutcome :=
  driveO2C 30 "check_in_guest" none s

/-- `graph.ainvoke(Command(resume=decision), config)` on a paused thread:
re-dispatch the suspended node with the decision delivered. -/
def resumeO2C (outcome : O2COutcome) (decision : String) : O2COutcome :=
  match outcome with
  | .paused node s => driveO2C 30 node (some decision) s
  | other => other

/-! ### Non-streaming execution glue (`core/executor.py`, `server.py`)

`WorkflowExecutor._execute_basic` calls `graph.ainvoke` and returns
`{"final_state": …, "steps_completed": [], "interrupted": False}` — the
`interrupted` flag is hardcoded `False` and steps are not tracked.  The
`/execute` endpoint then maps a successful result to status
`"completed"` unless `result.interrupted` is set, and an exception to
status `"error"`. -/

structure BasicExecResult where
  final_state : HotelO2CState
  steps_completed : List String
  interrupted : Bool
deriving DecidableEq

/-- `_execute_basic` on the hotel graph: `ainvoke` returns the state
reached so far (also at an interrupt); a failed drive raises. -/
def executeBasicO2C (out : O2COutcome) : Option BasicExecResult :=
  match out with
  | .failed _ => none
  | .paused _ s => some { final_state := s, steps_completed := [], interrupted := false }
  | .done s => some { final_state := s, steps_completed := [], interrupted := false }

/-- The `status` field of the non-streaming `/execute` JSON response,
computed from the basic-mode result as `execute_workflow_endpoint` does. -/
def nonStreamingStatus (out : O2COutcome) : String :=
  match executeBasicO2C out with
  | none => "error"
  | some r => if r.interrupted then "paused" else "completed"

/-! ### The `/resume` endpoint (`server.py`) -/

structure ResumeRequest where
  thread_id : String
  decision : String
deriving DecidableEq

/-- `resume_workflow`: the endpoint body builds and returns this static
instruction dict; it consults no run state and drives no graph. -/
def resume_workflow (req : ResumeRequest) : List (String × String) :=
  [ ("message", "Resume endpoint - implementation requires persistent state storage"),
    ("thread_id", req.thread_id),
    ("decision", req.decision),
    ("note", "In production, use PostgresSaver or Redis for state persistence") ]

/-- Field lookup in the JSON object returned by an endpoint. -/
def respLookup (resp : List (String × String)) (k : String) : Option String :=
  (resp.find? (fun p => p.1 = k)).map (·.2)

/-! ### Approval gate (`nodes/approve.py`) -/

structure ApprovalResult where
  approved : Bool
  comment : Option String
  timestamp : String
deriving DecidableEq

/-- The resume payload delivered to `request_approval`'s `interrupt`
call: either nothing (`None`) or a dict with optional `approved`,
`comment` and `timestamp` entries. -/
structure ResumePayload where
  approved : Option Bool
  comment : Option String
  timestamp : Option String
deriving DecidableEq

/-- The post-interrupt half of `request_approval`: how the resume value
returned by `interrupt` is turned into an `ApprovalResult`.  A `None`
payload defaults to `approved=False`; a dict payload is read with
`result.get("approved", False)` etc. -/
def requestApprovalResult (result : Option ResumePayload) : ApprovalResult :=
  match result with
  | none =>
    { approved := false
      comment := some "No approval data provided on resume"
      timestamp := "" }
  | some payload =>
    { approved := payload.approved.getD false
      comment := payload.comment
      timestamp := payload.timestamp.getD "" }

/-! ### Retry with backoff (`nodes/retry.py`)

`with_retry` is embedded over a deterministic model of the operation:
`op k` is the outcome of its `k`-th invocation (1-indexed), either a
value or a raised exception rendered as `f"{type(e).__name__}: {str(e)}"`.
Delays, jitter and timestamps affect no control-flow decision and are
not carried. -/

structure RetryResult (A : Type) where
  success : Bool
  result : Option A
  error : Option String
  attempt : Nat
  last_error : Option String
deriving DecidableEq

/-- One iteration of the retry loop at attempt number `a`: `some r`
means the loop returns `r` from within this iteration, `none` means it
sleeps and continues. -/
def retryLoopBody {A : Type} (op : Nat → Except String A) (should_retry : String → Bool)
    (max_attempts : Nat) (a : Nat) (prevErr : Option String) : Option (RetryResult A) :=
  match op a with
  | .ok v =>
    some { success := true, result := some v, error := none, attempt := a, last_error := prevErr }
  | .error e =>
    if !(should_retry e) then
      some { success := false, result := none,
             error := some ("Non-retryable error: " ++ e), attempt := a, last_error := some e }
    else if max_attempts ≤ a then
      some { success := false, result := none,
             error := some ("Max retries (" ++ toString max_attempts ++ ") exceeded. Last error: " ++ e),
             attempt := a, last_error := some e }
    else
      none

/-- The `retry_state["last_error"]` value after attempt `a`: the
rendered exception if it raised, the previous value otherwise. -/
def nextPrevErr {A : Type} (op : Nat → Except String A) (a : Nat)
    (prevErr : Option String) : Option String :=
  match op a with
  | .error e => some e
  | .ok _ => prevErr

/-- The `for attempt in range(1, max_attempts + 1)` loop over the listed
attempt numbers, threading the `retry_state` fields `last_error` and
`attempt` (`lastA`), followed by the trailing fallback result the claim
calls unreachable.  The second component counts invocations of `op`. -/
def retryLoop {A : Type} (op : Nat → Except String A) (should_retry : String → Bool)
    (max_attempts : Nat) : List Nat → Option String → Nat → Nat → RetryResult A × Nat
  | [], prevErr, lastA, calls =>
    ({ success := false, result := none,
       error := some "Retry loop completed without success or final failure",
       attempt := lastA, last_error := prevErr }, calls)
  | a :: rest, prevErr, _, calls =>
    match retryLoopBody op should_retry max_attempts a prevErr with
    | some r => (r, calls + 1)
    | none =>
      retryLoop op should_retry max_attempts rest (nextPrevErr op a prevErr) a (calls + 1)

/-- `with_retry(operation, config, …)`: run the attempt loop over
`[1, …, max_attempts]`, starting from `retry_state` with `attempt = 0`
and `last_error = None`; also returns how many times the operation was
invoked. -/
def with_retry {A : Type} (op : Nat → Except String A) (should_retry : String → Bool)
    (max_attempts : Nat) : RetryResult A × Nat :=
  retryLoop op should_retry max_attempts (List.range' 1 max_attempts) none 0 0

/-! ### Stream adapter (`core/stream_adapter.py`) -/

/-- Python truthiness for the values we model (floats, whose value is
abstracted, are treated as truthy; no adapter check tests a float). -/
def pyTruthy : PyVal → Bool
  | .vStr s => s != ""
  | .vInt n => n != 0
  | .vFloat => true
  | .vBool b => b
  | .vList .nil => false
  | .vList _ => true
  | .vDict .nil => false
  | .vDict _ => true
  | .vNone => false

/-- `state.get(k)` on a dict value (the streamed states are dicts). -/
def pyGet (v : PyVal) (k : String) : Option PyVal :=
  match v with
  | .vDict d => dictLookup d k
  | _ => none

/-- Python `x or y` over optional values; an absent key (`dict.get`
returning `None`) is falsy. -/
def pyOr (a b : Option PyVal) : Option PyVal :=
  match a with
  | some v => if pyTruthy v then some v else b
  | none => b

/-- Truthiness of a `dict.get` result. -/
def optTruthy : Option PyVal → Bool
  | some v => pyTruthy v
  | none => false

/-- `WorkflowProgressEvent`; `timestamp` is the millisecond wall-clock
stamp `__post_init__` assigns — its value is unconstrained by any claim,
and the adapter embedding stamps 0. -/
structure WorkflowProgressEvent where
  type : String
  graph_name : String
  step : Option PyVal := none
  state : Option PyVal := none
  progress : Option PyVal := none
  timestamp : Int := 0
deriving DecidableEq

/-- `AGUIStreamAdapter._calculate_progress_percentage`: `0` when
`self.total_steps` is `None` or `0` (falsy), otherwise
`int((self.current_step / self.total_steps) * 100)`.  The float
division and `int` truncation are modelled by exact natural division. -/
def calculate_progress_percentage (total_steps : Option Nat) (current_step : Nat) : Nat :=
  match total_steps with
  | none => 0
  | some 0 => 0
  | some (t + 1) => current_step * 100 / (t + 1)

/-- `self.total_steps or self.current_step`. -/
def totalStepsOr (total_steps : Option Nat) (current_step : Nat) : Nat :=
  match total_steps with
  | some 0 => current_step
  | some t => t
  | none => current_step

/-- The `progress` dict attached to a `step_complete` event. -/
def progressPayload (total_steps : Option Nat) (current_step : Nat) : PyVal :=
  .vDict (.cons "current_step" (.vInt current_step)
    (.cons "total_steps" (.vInt (totalStepsOr total_steps current_step))
      (.cons "percentage" (.vInt (calculate_progress_percentage total_steps current_step)) .nil)))

/-- The event yielded before the graph stream is entered. -/
def workflowStartEvent (g : String) (initial_state : PyVal) : WorkflowProgressEvent :=
  { type := "workflow_start", graph_name := g, state := some initial_state }

/-- The `step_complete` event for a streamed state. -/
def stepCompleteEvent (g : String) (node : PyVal) (st : PyVal)
    (total : Option Nat) (cur : Nat) : WorkflowProgressEvent :=
  { type := "step_complete", graph_name := g, step := some node, state := some st,
    progress := some (progressPayload total cur) }

/-- The `approval_required` event (step carries the loop's
`current_node` local, possibly `None`). -/
def approvalRequiredEvent (g : String) (node : Option PyVal) (st : PyVal) :
    WorkflowProgressEvent :=
  { type := "approval_required", graph_name := g, step := node, state := some st }

/-- The `workflow_error` event emitted for a state with errors. -/
def workflowErrorStateEvent (g : String) (node : Option PyVal) (st : PyVal) :
    WorkflowProgressEvent :=
  { type := "workflow_error", graph_name := g, step := node, state := some st }

/-- The final `workflow_complete` event (percentage hardcoded 100). -/
def workflowCompleteEvent (g : String) (st : PyVal) (total : Option Nat) (cur : Nat) :
    WorkflowProgressEvent :=
  { type := "workflow_complete", graph_name := g, state := some st,
    progress := some (.vDict (.cons "current_step" (.vInt cur)
      (.cons "total_steps" (.vInt (totalStepsOr total cur))
        (.cons "percentage" (.vInt 100) .nil)))) }

/-- The `workflow_error` event emitted when the graph stream raises. -/
def workflowExnEvent (g : String) (msg : String) : WorkflowProgressEvent :=
  { type := "workflow_error", graph_name := g,
    state := some (.vDict (.cons "error" (.vStr msg) .nil)) }

/-- `state.get("__current_node__") or state.get("current_step")`. -/
def effectiveCurrentNode (st : PyVal) : Option PyVal :=
  pyOr (pyGet st "__current_node__") (pyGet st "current_step")

/-- `state.get("errors") and len(state["errors"]) > 0` (the `errors`
channel is a list; true only for a non-empty one). -/
def errorsNonEmpty (st : PyVal) : Bool :=
  match pyGet st "errors" with
  | some (.vList (.cons _ _)) => true
  | _ => false

/-- `self.current_step` after processing one streamed state: it is
incremented exactly when the extracted current node is truthy. -/
def nextCur (st : PyVal) (cur : Nat) : Nat :=
  if optTruthy (effectiveCurrentNode st) then cur + 1 else cur

/-- The `step_complete` emission for one streamed state (empty when the
extracted current node is falsy). -/
def stepEventsOf (g : String) (total : Option Nat) (st : PyVal) (cur' : Nat) :
    List WorkflowProgressEvent :=
  match effectiveCurrentNode st with
  | some v => if pyTruthy v then [stepCompleteEvent g v st total cur'] else []
  | none => []

/-- The `approval_required` emission for one streamed state. -/
def apprEventsOf (g : String) (st : PyVal) : List WorkflowProgressEvent :=
  if optTruthy (pyGet st "pending_approval") then
    [approvalRequiredEvent g (effectiveCurrentNode st) st]
  else []

/-- The per-state event loop of
`AGUIStreamAdapter.stream_workflow_execution`: process streamed states
in order, then the terminal part — the `workflow_complete` event (built
from the last streamed state, or the initial state when nothing
streamed), or the `workflow_error` event when the stream raised after
its last yielded state.  A `break` on an error state stops processing
but still reaches the `workflow_complete` emission.  `cur` and `last`
thread `self.current_step` and the Python local `state`. -/
def streamLoop (g : String) (total : Option Nat) (raised : Option String) :
    List PyVal → Nat → PyVal → List WorkflowProgressEvent
  | [], cur, last =>
    match raised with
    | some msg => [workflowExnEvent g msg]
    | none => [workflowCompleteEvent g last total cur]
  | st :: rest, cur, _ =>
    stepEventsOf g total st (nextCur st cur) ++ apprEventsOf g st ++
      (if errorsNonEmpty st then
        [workflowErrorStateEvent g (effectiveCurrentNode st) st,
         workflowCompleteEvent g st total (nextCur st cur)]
      else streamLoop g total raised rest (nextCur st cur) st)

/-- `AGUIStreamAdapter.stream_workflow_execution`: the start event is
yielded before the graph stream is entered, then the processing loop.
`trace` is the sequence of states `graph.astream` yields and `raised`
the exception message it raises afterwards, if any.  The adapter's
`steps_completed` / `checkpoints` bookkeeping is internal and consulted
by no theorem, so it is not carried. -/
def stream_workflow_execution (g : String) (total : Option Nat) (initial_state : PyVal)
    (trace : List PyVal) (raised : Option String) : List WorkflowProgressEvent :=
  workflowStartEvent g initial_state :: streamLoop g total raised trace 0 initial_state

/-! ### SSE framing (`SSEWorkflowStreamer.format_sse_event`)

`json.dumps` of the event payload, with the default separators and
ASCII escaping.  Characters beyond the explicitly escaped ones are
emitted as-is; the further `\uXXXX` escapes `json.dumps` produces never
contain a newline either, so line-structure facts are unaffected. -/

/-- Digits of a natural number, most significant first. -/
def natDigitsAux : Nat → Nat → List Char
  | 0, _ => []
  | fuel + 1, n =>
    if n < 10 then [Nat.digitChar n]
    else natDigitsAux fuel (n / 10) ++ [Nat.digitChar (n % 10)]

/-- Decimal rendering of a natural number. -/
def natRepr (n : Nat) : String := ⟨natDigitsAux (n + 1) n⟩

/-- Decimal rendering of an integer, as `json.dumps` prints it. -/
def intRepr (n : Int) : String :=
  if n < 0 then "-" ++ natRepr n.natAbs else natRepr n.natAbs

/-- `json.dumps` escaping for one string character. -/
def escapeChar (c : Char) : String :=
  if c = '"' then "\\\""
  else if c = '\\' then "\\\\"
  else if c = '\n' then "\\n"
  else if c = '\r' then "\\r"
  else if c = '\t' then "\\t"
  else String.singleton c

/-- Escape every character of a list. -/
def escapeChars : List Char → String
  | [] => ""
  | c :: cs => escapeChar c ++ escapeChars cs

/-- Escape a string for a JSON string literal. -/
def escapeString (s : String) : String := escapeChars s.data

mutual

/-- `json.dumps` of a Python value (floats are abstracted: a float repr
never contains a newline, which is all the framing facts use). -/
def serializePy : PyVal → String
  | .vStr s => "\"" ++ escapeString s ++ "\""
  | .vInt n => intRepr n
  | .vFloat => "0.0"
  | .vBool true => "true"
  | .vBool false => "false"
  | .vNone => "null"
  | .vList xs => "[" ++ serializePyList xs ++ "]"
  | .vDict d => "\x7b" ++ serializePyObj d ++ "\x7d"

/-- List items joined by the default `", "` separator. -/
def serializePyList : PyList → String
  | .nil => ""
  | .cons v .nil => serializePy v
  | .cons v rest => serializePy v ++ ", " ++ serializePyList rest

/-- Dict entries `"key": value` joined by `", "`. -/
def serializePyObj : PyObj → String
  | .nil => ""
  | .cons k v .nil => "\"" ++ escapeString k ++ "\": " ++ serializePy v
  | .cons k v rest =>
    "\"" ++ escapeString k ++ "\": " ++ serializePy v ++ ", " ++ serializePyObj rest

end

/-- `WorkflowProgressEvent.to_dict`. -/
def eventToDict (e : WorkflowProgressEvent) : PyObj :=
  .cons "type" (.vStr e.type)
    (.cons "graph_name" (.vStr e.graph_name)
      (.cons "step" (e.step.getD .vNone)
        (.cons "state" (e.state.getD .vNone)
          (.cons "progress" (e.progress.getD .vNone)
            (.cons "timestamp" (.vInt e.timestamp) .nil)))))

/-- `WorkflowProgressEvent.to_agui_event`. -/
def toAguiEvent (e : WorkflowProgressEvent) : PyObj :=
  .cons "type" (.vStr "workflow_progress")
    (.cons "data" (.vDict (eventToDict e)) .nil)

/-- `SSEWorkflowStreamer.format_sse_event`: an `event:` line built from
`agui_event["type"]`, a `data:` line with `json.dumps(agui_event["data"])`,
then the blank line. -/
def format_sse_event (e : WorkflowProgressEvent) : String :=
  let agui := toAguiEvent e
  let ty := match dictLookup agui "type" with
    | some (.vStr s) => s
    | _ => ""
  let payload := match dictLookup agui "data" with
    | some v => serializePy v
    | none => ""
  "event: " ++ ty ++ "\n" ++ "data: " ++ payload ++ "\n\n"

/-! ### Redis checkpoint store (`core/redis_checkpointer.py`) -/

/-- A stored checkpoint: of LangGraph's checkpoint dict, the `id` and
`ts` entries drive `_get_latest`; `blob` abstracts the remaining pickled
payload (serialization round-tripping is assumed exact). -/
structure Checkpoint where
  id : String
  ts : Nat
  blob : String
deriving DecidableEq

/-- Keys `{namespace}:checkpoint:{thread_id}:{checkpoint_id}` and
`{namespace}:metadata:{thread_id}` are modelled structurally: the glob
scan `{namespace}:checkpoint:{thread_id}:*` selects exactly the thread's
checkpoint keys whenever ids contain no `:` or glob metacharacters,
which holds for the UUID-based ids the service generates. -/
inductive RKey where
  | ckpt (thread_id checkpoint_id : String)
  | meta (thread_id : String)
deriving DecidableEq

inductive RVal where
  | ckptVal (c : Checkpoint)
  | metaVal (s : String)
deriving DecidableEq

structure REntry where
  key : RKey
  val : RVal
  ttl : Nat
deriving DecidableEq

abbrev RedisStore := List REntry

/-- `EXPIRE key ttl` (a no-op on a missing key). -/
def redisExpire (st : RedisStore) (k : RKey) (ttl : Nat) : RedisStore :=
  st.map (fun e => if e.key = k then { e with ttl := ttl } else e)

/-- The checkpoints the scan-and-get pass of `_get_latest` collects for
a thread, in store order. -/
def threadCheckpoints (st : RedisStore) (thread_id : String) : List Checkpoint :=
  st.filterMap (fun e =>
    match e.key, e.val with
    | .ckpt t _, .ckptVal c => if t = thread_id then some c else none
    | _, _ => none)

/-- `max(checkpoints, key=lambda c: c.get("ts", 0))`: Python's `max`
keeps the earliest of equal maxima. -/
def maxByTs (c0 : Checkpoint) (cs : List Checkpoint) : Checkpoint :=
  cs.foldl (fun acc c => if acc.ts < c.ts then c else acc) c0

/-- `RedisSaver._get_latest`: collect the thread's checkpoints, pick the
one with the greatest timestamp, and — when `extend_on_access` — refresh
the TTL on that checkpoint's key and then on the thread's metadata key.
Returns the result with the updated store. -/
def get_latest (extend_on_access : Bool) (ttl_seconds : Nat)
    (st : RedisStore) (thread_id : String) : Option Checkpoint × RedisStore :=
  match threadCheckpoints st thread_id with
  | [] => (none, st)
  | c0 :: rest =>
    let latest := maxByTs c0 rest
    if extend_on_access then
      (some latest,
        redisExpire (redisExpire st (.ckpt thread_id latest.id) ttl_seconds)
          (.meta thread_id) ttl_seconds)
    else
      (some latest, st)

/-! ### Projections and concrete inputs used by witnesses -/

/-- The node a paused outcome is suspended at, if any. -/
def O2COutcome.pausedAt : O2COutcome → Option String
  | .paused n _ => some n
  | _ => none

/-- The final state of a terminal outcome, if any. -/
def O2COutcome.finalState : O2COutcome → Option HotelO2CState
  | .done s => some s
  | _ => none

/-- A string without a newline character (a "single line"). -/
def nlFree (s : String) : Prop := '\n' ∉ s.data

instance (s : String) : Decidable (nlFree s) :=
  inferInstanceAs (Decidable ('\n' ∉ s.data))

/-- The hotel O2C happy-path scenario input of spec §8, with the state
channels initialized the way `test_workflow` does. -/
def o2cScenarioState : HotelO2CState :=
  { reservation_id := "RES-1", guest_name := "J", room_number := "101",
    check_in_date := "2025-10-01", check_out_date := "2025-10-02",
    folio_id := none, invoice_id := none, current_step := "start",
    steps_completed := [], errors := [], pending_approval := false,
    approval_decision := none }

/-- A hotel O2C initial-state dict with all five required fields. -/
def demoHotelState : PyDict :=
  .cons "reservation_id" (.vStr "RES-1")
    (.cons "guest_name" (.vStr "J")
      (.cons "room_number" (.vStr "101")
        (.cons "check_in_date" (.vStr "2025-10-01")
          (.cons "check_out_date" (.vStr "2025-10-02") .nil))))

/-- A hospital admissions initial-state dict: required fields present,
the optional `clinical_protocol` absent, and the base field `messages`
already present. -/
def demoHospitalState : PyDict :=
  .cons "patient_name" (.vStr "Ana")
    (.cons "admission_date" (.vStr "2025-10-01")
      (.cons "primary_diagnosis" (.vStr "flu")
        (.cons "messages" (.vList .nil) .nil)))

/-- A streamed state whose `current_step` entry makes the adapter count
a completed step. -/
def demoProgressState : PyVal :=
  .vDict (.cons "current_step" (.vStr "step") .nil)

/-- Ten streamed states: more completed steps than `hotel_o2c`'s
estimated five. -/
def demoProgressTrace : List PyVal := List.replicate 10 demoProgressState

/-- A single streamed state. -/
def demoProgressTrace1 : List PyVal := [demoProgressState]

/-- An older checkpoint of thread `t1`. -/
def demoCkptOld : Checkpoint := { id := "ck-1", ts := 1, blob := "b1" }

/-- The newest checkpoint of thread `t1`. -/
def demoCkptNew : Checkpoint := { id := "ck-2", ts := 5, blob := "b2" }

/-- A store with two checkpoints for thread `t1`, its metadata entry,
and a checkpoint of another thread. -/
def demoRedisStore : RedisStore :=
  [ { key := .ckpt "t1" "ck-1", val := .ckptVal demoCkptOld, ttl := 100 },
    { key := .ckpt "t1" "ck-2", val := .ckptVal demoCkptNew, ttl := 100 },
    { key := .meta "t1", val := .metaVal "m", ttl := 100 },
    { key := .ckpt "t2" "ck-9", val := .ckptVal { id := "ck-9", ts := 9, blob := "b9" }, ttl := 100 } ]

/-- An operation that raises once, then succeeds. -/
def demoRetryOp : Nat → Except String Nat :=
  fun k => if k = 1 then .error "ConnectionError: boom" else .ok 42

/-- The default predicate shape: retry everything. -/
def demoShouldRetry : String → Bool := fun _ => true

/-! ## Theorems -/

/-- C7: when an approval gate's suspension call returns no payload
(`interrupt` yields `None` on resume), `request_approval` defaults the
result to `approved = false`, so the guarded action is not taken. -/
theorem request_approval_null_resume_defaults_to_rejected :
    (requestApprovalResult none).approved = false := rfl

/-- C1 (code-bug evidence): for every `POST /resume` request the
endpoint returns the same static instruction dict — echoing `thread_id`
and `decision` — with no `status` and no resumed state; no decision is
delivered and no drive is resumed. -/
theorem resume_workflow_returns_static_instructions (t d : String) :
    resume_workflow { thread_id := t, decision := d } =
      [ ("message", "Resume endpoint - implementation requires persistent state storage"),
        ("thread_id", t), ("decision", d),
        ("note", "In production, use PostgresSaver or Redis for state persistence") ] ∧
    respLookup (resume_workflow { thread_id := t, decision := d }) "status" = none ∧
    respLookup (resume_workflow { thread_id := t, decision := d }) "final_state" = none :=
  ⟨rfl, rfl, rfl⟩

/-- C2 (code-bug evidence): at the graph level the spec's hotel O2C
scenario holds — the drive pauses at `check_in_guest`, pauses again at
`generate_invoice` after an approve, and completes with exactly the five
claimed steps after the second approve — but the non-streaming
`/execute` path reports status `"completed"` at the first pause, never
`"paused"`, because `_execute_basic` hardcodes `interrupted = False`. -/
theorem hotel_o2c_scenario_vs_basic_status :
    (executeO2C o2cScenarioState).pausedAt = some "check_in_guest" ∧
    (resumeO2C (executeO2C o2cScenarioState) "approve").pausedAt = some "generate_invoice" ∧
    ((resumeO2C (resumeO2C (executeO2C o2cScenarioState) "approve") "approve").finalState).map
        (fun s => s.steps_completed) =
      some ["check_in", "create_folio", "add_charges", "check_out", "generate_invoice"] ∧
    ((resumeO2C (resumeO2C (executeO2C o2cScenarioState) "approve") "approve").finalState).map
        (fun s => s.current_step) = some "completed" ∧
    nonStreamingStatus (executeO2C o2cScenarioState) = "completed" ∧
    ("completed" : String) ≠ "paused" := by
  refine ⟨rfl, rfl, rfl, rfl, rfl, by decide⟩

/-- C9: the event sequence of `stream_workflow_execution` begins with a
`workflow_start` event carrying the initial state, for every graph
stream trace — including traces after which the stream raises. -/
theorem stream_workflow_execution_starts_with_workflow_start
    (g : String) (total : Option Nat) (init : PyVal)
    (trace : List PyVal) (raised : Option String) :
    (stream_workflow_execution g total init trace raised).head? =
        some (workflowStartEvent g init) ∧
    (workflowStartEvent g init).type = "workflow_start" ∧
    (workflowStartEvent g init).state = some init :=
  ⟨rfl, rfl, rfl⟩

/-! ### Retry loop lemmas (C10) -/

theorem ne_of_data_head {s u : String} (a b : Char) (hs : s.data.head? = some a)
    (hu : u.data.head? = some b) (hab : a ≠ b) : s ≠ u := by
  intro h
  rw [h, hu] at hs
  cases hs
  exact hab rfl

theorem retryLoopBody_ok {A : Type} (op : Nat → Except String A) (p : String → Bool)
    (maxA a : Nat) (pe : Option String) {v : A} (h : op a = .ok v) :
    retryLoopBody op p maxA a pe =
      some { success := true, result := some v, error := none, attempt := a,
             last_error := pe } := by
  unfold retryLoopBody
  rw [h]

theorem retryLoopBody_error {A : Type} (op : Nat → Except String A) (p : String → Bool)
    (maxA a : Nat) (pe : Option String) {e : String} (h : op a = .error e) :
    retryLoopBody op p maxA a pe =
      if (!p e) = true then
        some { success := false, result := none,
               error := some ("Non-retryable error: " ++ e), attempt := a,
               last_error := some e }
      else if maxA ≤ a then
        some { success := false, result := none,
               error := some ("Max retries (" ++ toString maxA ++ ") exceeded. Last error: " ++ e),
               attempt := a, last_error := some e }
      else none := by
  unfold retryLoopBody
  rw [h]

theorem retryLoop_cons {A : Type} (op : Nat → Except String A) (p : String → Bool)
    (maxA a : Nat) (rest : List Nat) (pe : Option String) (la calls : Nat) :
    retryLoop op p maxA (a :: rest) pe la calls =
      match retryLoopBody op p maxA a pe with
      | some r => (r, calls + 1)
      | none => retryLoop op p maxA rest (nextPrevErr op a pe) a (calls + 1) := rfl

theorem retryLoop_cons_some {A : Type} {op : Nat → Except String A} {p : String → Bool}
    {maxA a : Nat} {pe : Option String} {r : RetryResult A} (rest : List Nat) (la calls : Nat)
    (h : retryLoopBody op p maxA a pe = some r) :
    retryLoop op p maxA (a :: rest) pe la calls = (r, calls + 1) := by
  rw [retryLoop_cons, h]

theorem retryLoop_cons_none {A : Type} {op : Nat → Except String A} {p : String → Bool}
    {maxA a : Nat} {pe : Option String} (rest : List Nat) (la calls : Nat)
    (h : retryLoopBody op p maxA a pe = none) :
    retryLoop op p maxA (a :: rest) pe la calls =
      retryLoop op p maxA rest (nextPrevErr op a pe) a (calls + 1) := by
  rw [retryLoop_cons, h]

theorem nextPrevErr_error {A : Type} {op : Nat → Except String A} {a : Nat}
    {e : String} (pe : Option String) (h : op a = .error e) :
    nextPrevErr op a pe = some e := by
  unfold nextPrevErr
  rw [h]

theorem retryLoopBody_none_elim {A : Type} {op : Nat → Except String A} {p : String → Bool}
    {maxA a : Nat} {pe : Option String}
    (h : retryLoopBody op p maxA a pe = none) :
    ∃ e, op a = .error e ∧ p e = true ∧ a < maxA := by
  cases hop : op a with
  | ok v => rw [retryLoopBody_ok op p maxA a pe hop] at h; cases h
  | error e =>
    rw [retryLoopBody_error op p maxA a pe hop] at h
    cases hp : p e with
    | false => rw [hp] at h; simp at h
    | true =>
      rw [hp] at h
      simp only [Bool.not_true, Bool.false_eq_true, if_false] at h
      by_cases hm : maxA ≤ a
      · rw [if_pos hm] at h; cases h
      · exact ⟨e, rfl, hp, by omega⟩

theorem retryLoopBody_no_fallback {A : Type} {op : Nat → Except String A} {p : String → Bool}
    {maxA k : Nat} {pe : Option String} {r : RetryResult A}
    (h : retryLoopBody op p maxA k pe = some r) :
    r.error ≠ some "Retry loop completed without success or final failure" := by
  cases hop : op k with
  | ok v =>
    rw [retryLoopBody_ok op p maxA k pe hop] at h
    injection h with h2
    subst h2
    simp
  | error e =>
    rw [retryLoopBody_error op p maxA k pe hop] at h
    cases hp : p e with
    | false =>
      rw [hp] at h
      simp only [Bool.not_false, if_true] at h
      injection h with h2
      subst h2
      simp only [ne_eq, Option.some.injEq]
      refine ne_of_data_head 'N' 'R' ?_ (by decide) (by decide)
      simp only [String.data_append]
      rfl
    | true =>
      rw [hp] at h
      simp only [Bool.not_true, Bool.false_eq_true, if_false] at h
      by_cases hm : maxA ≤ k
      · rw [if_pos hm] at h
        injection h with h2
        subst h2
        simp only [ne_eq, Option.some.injEq]
        refine ne_of_data_head 'M' 'R' ?_ (by decide) (by decide)
        simp only [String.data_append]
        rfl
      · rw [if_neg hm] at h
        cases h

theorem retryLoop_range_spec {A : Type} (op : Nat → Except String A) (p : String → Bool)
    (maxA : Nat) :
    ∀ (l a : Nat) (pe : Option String) (la calls : Nat),
      a + l = maxA → 1 ≤ a →
      (retryLoop op p maxA (List.range' a (l + 1)) pe la calls).1.error ≠
          some "Retry loop completed without success or final failure" ∧
      ∃ k pe', a ≤ k ∧ k ≤ maxA ∧
        (retryLoop op p maxA (List.range' a (l + 1)) pe la calls).2 = calls + (k - a) + 1 ∧
        retryLoopBody op p maxA k pe' =
          some (retryLoop op p maxA (List.range' a (l + 1)) pe la calls).1 ∧
        (∀ j, a ≤ j → j < k → ∃ e, op j = .error e ∧ p e = true) := by
  intro l
  induction l with
  | zero =>
    intro a pe la calls hsum ha
    rw [List.range'_one]
    cases hbody : retryLoopBody op p maxA a pe with
    | none =>
      obtain ⟨e, hop, hp, hlt⟩ := retryLoopBody_none_elim hbody
      omega
    | some r =>
      rw [retryLoop_cons_some [] la calls hbody]
      refine ⟨retryLoopBody_no_fallback hbody, a, pe, le_refl a, by omega, by omega, hbody, ?_⟩
      intro j hj1 hj2
      omega
  | succ l ih =>
    intro a pe la calls hsum ha
    rw [List.range'_succ]
    cases hbody : retryLoopBody op p maxA a pe with
    | some r =>
      rw [retryLoop_cons_some (List.range' (a + 1) (l + 1)) la calls hbody]
      refine ⟨retryLoopBody_no_fallback hbody, a, pe, le_refl a, by omega, by omega, hbody, ?_⟩
      intro j hj1 hj2
      omega
    | none =>
      obtain ⟨e, hop, hp, hlt⟩ := retryLoopBody_none_elim hbody
      rw [retryLoop_cons_none (List.range' (a + 1) (l + 1)) la calls hbody,
        nextPrevErr_error pe hop]
      obtain ⟨hne, k, pe', hk1, hk2, hcalls, hbodyk, hprev⟩ :=
        ih (a + 1) (some e) a (calls + 1) (by omega) (by omega)
      refine ⟨hne, k, pe', by omega, hk2, by omega, hbodyk, ?_⟩
      intro j hj1 hj2
      rcases eq_or_lt_of_le hj1 with heq | hgt
      · refine ⟨e, ?_, hp⟩
        rw [← heq]
        exact hop
      · exact hprev j (by omega) hj2

/-- C10: with `max_attempts ≥ 1`, `with_retry` invokes the operation at
most `max_attempts` times and returns from within the attempt loop —
success at the first non-raising attempt (every earlier attempt raised a
retryable error), a non-retryable-error failure, or a
max-retries-exceeded failure — so the trailing fallback result
("Retry loop completed without success or final failure") is
unreachable. -/
theorem with_retry_returns_within_loop {A : Type} (op : Nat → Except String A)
    (p : String → Bool) (max_attempts : Nat) (h : 1 ≤ max_attempts) :
    (with_retry op p max_attempts).2 ≤ max_attempts ∧
    (with_retry op p max_attempts).1.error ≠
      some "Retry loop completed without success or final failure" ∧
    ∃ k pe, 1 ≤ k ∧ k ≤ max_attempts ∧ (with_retry op p max_attempts).2 = k ∧
      retryLoopBody op p max_attempts k pe = some (with_retry op p max_attempts).1 ∧
      ∀ j, 1 ≤ j → j < k → ∃ e, op j = .error e ∧ p e = true := by
  obtain ⟨m, rfl⟩ : ∃ m, max_attempts = m + 1 :=
    ⟨max_attempts - 1, (Nat.succ_pred_eq_of_pos h).symm⟩
  obtain ⟨hne, k, pe, hk1, hk2, hcalls, hbody, hprev⟩ :=
    retryLoop_range_spec op p (m + 1) m 1 none 0 0 (by omega) (by omega)
  have hwr : with_retry op p (m + 1) =
      retryLoop op p (m + 1) (List.range' 1 (m + 1)) none 0 0 := rfl
  rw [hwr]
  exact ⟨by omega, hne, k, pe, hk1, hk2, by omega, hbody, hprev⟩

/-- Witness for C10 at a concrete operation that raises once then
succeeds, with `max_attempts = 3`. -/
theorem with_retry_returns_within_loop_witness :
    (with_retry demoRetryOp demoShouldRetry 3).2 ≤ 3 ∧
    (with_retry demoRetryOp demoShouldRetry 3).1.error ≠
      some "Retry loop completed without success or final failure" :=
  ⟨(with_retry_returns_within_loop demoRetryOp demoShouldRetry 3 (by decide)).1,
   (with_retry_returns_within_loop demoRetryOp demoShouldRetry 3 (by decide)).2.1⟩

/-! ### Dict and auto-population lemmas (C3, C8) -/

theorem popStep_of_contains {st : PyDict} {f : String} (d : PyDict)
    (h : dictContains st f = true) : popStep st d f = d := by
  simp [popStep, h]

theorem popStep_of_missing {st : PyDict} {f : String} (d : PyDict)
    (h : dictContains st f = false) :
    popStep st d f = dictSet d f (baseDefault f) := by
  simp [popStep, h]

theorem dictLookup_dictSet_self : (d : PyDict) → (k : String) → (v : PyVal) →
    dictLookup (dictSet d k v) k = some v
  | .nil, k, v => by simp [dictSet, dictLookup]
  | .cons k' v' rest, k, v => by
    by_cases h : k' = k
    · subst h
      simp [dictSet, dictLookup]
    · simp only [dictSet, if_neg h, dictLookup]
      exact dictLookup_dictSet_self rest k v

theorem dictLookup_dictSet_ne : (d : PyDict) → {k q : String} → (v : PyVal) → k ≠ q →
    dictLookup (dictSet d k v) q = dictLookup d q
  | .nil, k, q, v, hkq => by
    simp only [dictSet, dictLookup]
    rw [if_neg hkq]
  | .cons k' v' rest, k, q, v, hkq => by
    by_cases h : k' = k
    · subst h
      simp only [dictSet, if_pos rfl, dictLookup]
      rw [if_neg hkq, if_neg hkq]
    · simp only [dictSet, if_neg h, dictLookup]
      by_cases h2 : k' = q
      · rw [if_pos h2, if_pos h2]
      · rw [if_neg h2, if_neg h2]
        exact dictLookup_dictSet_ne rest v hkq

theorem foldl_popStep_notmem (st : PyDict) : (L : List String) → (d : PyDict) →
    (q : String) → q ∉ L →
    dictLookup (L.foldl (popStep st) d) q = dictLookup d q
  | [], _, _, _ => rfl
  | f :: rest, d, q, hq => by
    have hrest : q ∉ rest := fun h => hq (List.mem_cons_of_mem f h)
    have hqf : f ≠ q := fun h => hq (h ▸ List.mem_cons_self f rest)
    simp only [List.foldl_cons]
    cases hc : dictContains st f with
    | true =>
      rw [popStep_of_contains d hc]
      exact foldl_popStep_notmem st rest d q hrest
    | false =>
      rw [popStep_of_missing d hc]
      rw [foldl_popStep_notmem st rest (dictSet d f (baseDefault f)) q hrest]
      exact dictLookup_dictSet_ne d (baseDefault f) hqf

theorem foldl_popStep_missing (st : PyDict) : (L : List String) → (d : PyDict) →
    (q : String) → dictLookup st q = none → q ∈ L →
    dictLookup (L.foldl (popStep st) d) q = some (baseDefault q)
  | [], _, _, _, hmem => absurd hmem (List.not_mem_nil _)
  | f :: rest, d, q, hnone, hmem => by
    simp only [List.foldl_cons]
    by_cases hf : f = q
    · subst hf
      have hc : dictContains st f = false := by
        unfold dictContains
        rw [hnone]
        rfl
      by_cases hr : f ∈ rest
      · exact foldl_popStep_missing st rest (popStep st d f) f hnone hr
      · rw [popStep_of_missing d hc]
        rw [foldl_popStep_notmem st rest (dictSet d f (baseDefault f)) f hr]
        exact dictLookup_dictSet_self d f (baseDefault f)
    · have hr : q ∈ rest := by
        cases hmem with
        | head => exact absurd rfl hf
        | tail _ h => exact h
      exact foldl_popStep_missing st rest (popStep st d f) q hnone hr

theorem foldl_popStep_present (st : PyDict) : (L : List String) → (d : PyDict) →
    (q : String) → dictContains st q = true →
    dictLookup (L.foldl (popStep st) d) q = dictLookup d q
  | [], _, _, _ => rfl
  | f :: rest, d, q, hcont => by
    simp only [List.foldl_cons]
    cases hc : dictContains st f with
    | true =>
      rw [popStep_of_contains d hc]
      exact foldl_popStep_present st rest d q hcont
    | false =>
      rw [popStep_of_missing d hc]
      rw [foldl_popStep_present st rest (dictSet d f (baseDefault f)) q hcont]
      refine dictLookup_dictSet_ne d (baseDefault f) ?_
      intro h
      subst h
      rw [hcont] at hc
      cases hc

theorem validate_initial_state_eq_of_valid (g : String) (st : PyDict)
    (md : WorkflowGraphMetadata) (hmd : getWorkflowMetadata g = some md)
    (hreq : missingRequired md.initial_state_schema st = [])
    (hty : typeCheck md.initial_state_schema st = none) :
    validate_initial_state g st = (populateBase st, true, none) := by
  unfold validate_initial_state
  rw [hmd]
  simp [hreq, hty]

/-- C3: for every registered graph and every initial state passing the
required-field and type checks, validation returns success with no error
message, and every base field absent from the input is auto-populated
with its default (`messages` with `[]`, `step_count` with `0`, the rest
with `None`). -/
theorem validate_auto_populates_base_fields (g : String) (st : PyDict)
    (md : WorkflowGraphMetadata) (hmd : getWorkflowMetadata g = some md)
    (hreq : missingRequired md.initial_state_schema st = [])
    (hty : typeCheck md.initial_state_schema st = none) :
    (validate_initial_state g st).2.1 = true ∧
    (validate_initial_state g st).2.2 = none ∧
    ∀ f ∈ baseFields, dictLookup st f = none →
      dictLookup (validate_initial_state g st).1 f = some (baseDefault f) := by
  rw [validate_initial_state_eq_of_valid g st md hmd hreq hty]
  refine ⟨rfl, rfl, ?_⟩
  intro f hf hnone
  exact foldl_popStep_missing st baseFields st f hnone hf

/-- Witness for C3: the hotel O2C scenario input passes validation and
gets `messages` and `step_count` auto-filled. -/
theorem validate_auto_populates_base_fields_witness :
    (validate_initial_state "hotel_o2c" demoHotelState).2.1 = true ∧
    (validate_initial_state "hotel_o2c" demoHotelState).2.2 = none ∧
    dictLookup (validate_initial_state "hotel_o2c" demoHotelState).1 "messages" =
      some (.vList .nil) ∧
    dictLookup (validate_initial_state "hotel_o2c" demoHotelState).1 "step_count" =
      some (.vInt 0) := by
  have h := validate_auto_populates_base_fields "hotel_o2c" demoHotelState hotelO2CMetadata
    (by decide) (by decide) (by decide)
  exact ⟨h.1, h.2.1, h.2.2 "messages" (by decide) (by decide),
    h.2.2 "step_count" (by decide) (by decide)⟩

/-- C8 counterexample: on an input failing the required-field check
(here the empty dict, which also misses every base field), validation
returns early and writes nothing — the dict is left without `messages`,
refuting the claim for arbitrary inputs. -/
theorem validate_no_mutation_on_required_failure :
    (validate_initial_state "hotel_o2c" PyObj.nil).1 = PyObj.nil ∧
    dictLookup (validate_initial_state "hotel_o2c" PyObj.nil).1 "messages" = none ∧
    (validate_initial_state "hotel_o2c" PyObj.nil).2.1 = false ∧
    (validate_initial_state "hotel_o2c" PyObj.nil).2.2 =
      some "Missing required fields: reservation_id, guest_name, room_number, check_in_date, check_out_date" := by
  refine ⟨rfl, rfl, rfl, by decide⟩

/-- C8 (amended): when validation succeeds — registered graph,
required-field and type checks passing — the returned dict is the
caller's dict updated in place: every binding already present keeps its
value, and every absent base field is written with its default. -/
theorem validate_mutates_input_in_place_on_success (g : String) (st : PyDict)
    (md : WorkflowGraphMetadata) (hmd : getWorkflowMetadata g = some md)
    (hreq : missingRequired md.initial_state_schema st = [])
    (hty : typeCheck md.initial_state_schema st = none) :
    (∀ k v, dictLookup st k = some v →
      dictLookup (validate_initial_state g st).1 k = some v) ∧
    (∀ f ∈ baseFields, dictLookup st f = none →
      dictLookup (validate_initial_state g st).1 f = some (baseDefault f)) := by
  rw [validate_initial_state_eq_of_valid g st md hmd hreq hty]
  constructor
  · intro k v hk
    have hcont : dictContains st k = true := by
      unfold dictContains
      rw [hk]
      rfl
    unfold populateBase
    rw [foldl_popStep_present st baseFields st k hcont]
    exact hk
  · intro f hf hnone
    exact foldl_popStep_missing st baseFields st f hnone hf

/-- Witness for C8 on a hospital admissions input: the present fields
(`patient_name`, the already-present `messages`) are preserved and the
absent base field `step_count` is written with its default. -/
theorem validate_mutates_input_in_place_on_success_witness :
    dictLookup (validate_initial_state "hospital_admissions" demoHospitalState).1
      "patient_name" = some (.vStr "Ana") ∧
    dictLookup (validate_initial_state "hospital_admissions" demoHospitalState).1
      "messages" = some (.vList .nil) ∧
    dictLookup (validate_initial_state "hospital_admissions" demoHospitalState).1
      "step_count" = some (.vInt 0) := by
  have h := validate_mutates_input_in_place_on_success "hospital_admissions"
    demoHospitalState hospitalAdmissionsMetadata (by decide) (by decide) (by decide)
  exact ⟨h.1 "patient_name" (.vStr "Ana") (by decide),
    h.1 "messages" (.vList .nil) (by decide),
    h.2 "step_count" (by decide) (by decide)⟩

/-! ### Checkpoint-store lemmas (C6) -/

theorem maxByTs_mem : (c0 : Checkpoint) → (cs : List Checkpoint) →
    maxByTs c0 cs ∈ c0 :: cs
  | c0, [] => by simp [maxByTs]
  | c0, c :: cs => by
    have h := maxByTs_mem (if c0.ts < c.ts then c else c0) cs
    simp only [maxByTs, List.foldl_cons] at h ⊢
    rcases List.mem_cons.mp h with h1 | h1
    · rw [h1]
      split
      · exact List.mem_cons_of_mem _ (List.mem_cons_self _ _)
      · exact List.mem_cons_self _ _
    · exact List.mem_cons_of_mem _ (List.mem_cons_of_mem _ h1)

theorem maxByTs_ge : (c0 : Checkpoint) → (cs : List Checkpoint) →
    ∀ c ∈ c0 :: cs, c.ts ≤ (maxByTs c0 cs).ts
  | c0, [] => by
    intro c hc
    rcases List.mem_cons.mp hc with h1 | h1
    · rw [h1]
      simp [maxByTs]
    · exact absurd h1 (List.not_mem_nil c)
  | c0, c :: cs => by
    intro x hx
    have hge := maxByTs_ge (if c0.ts < c.ts then c else c0) cs
    simp only [maxByTs, List.foldl_cons] at hge ⊢
    have hself := hge _ (List.mem_cons_self _ _)
    have hc0 : c0.ts ≤ (if c0.ts < c.ts then c else c0).ts := by
      split <;> omega
    have hcc : c.ts ≤ (if c0.ts < c.ts then c else c0).ts := by
      split
      · omega
      · omega
    rcases List.mem_cons.mp hx with h1 | h1
    · rw [h1]
      exact le_trans hc0 hself
    · rcases List.mem_cons.mp h1 with h2 | h2
      · rw [h2]
        exact le_trans hcc hself
      · exact hge x (List.mem_cons_of_mem _ h2)

/-- C6: for a thread with at least one stored checkpoint `_get_latest`
returns a checkpoint of that thread whose timestamp is greatest among
the thread's checkpoints (and `none` with the store untouched for a
thread with none); when `extend_on_access` is set, it additionally
refreshes the TTL on that checkpoint's key and on the thread's metadata
key, and otherwise leaves the store unchanged. -/
theorem get_latest_returns_max_ts (ex : Bool) (ttl : Nat) (st : RedisStore) (tid : String) :
    (threadCheckpoints st tid = [] → get_latest ex ttl st tid = (none, st)) ∧
    (∀ c0 rest, threadCheckpoints st tid = c0 :: rest →
      ∃ c, (get_latest ex ttl st tid).1 = some c ∧
        c ∈ threadCheckpoints st tid ∧
        (∀ c' ∈ threadCheckpoints st tid, c'.ts ≤ c.ts) ∧
        (ex = true → (get_latest ex ttl st tid).2 =
          redisExpire (redisExpire st (.ckpt tid c.id) ttl) (.meta tid) ttl) ∧
        (ex = false → (get_latest ex ttl st tid).2 = st)) := by
  constructor
  · intro h
    unfold get_latest
    rw [h]
  · intro c0 rest h
    cases ex with
    | true =>
      refine ⟨maxByTs c0 rest, ?_, ?_, ?_, ?_, ?_⟩
      · unfold get_latest
        rw [h]
        rfl
      · rw [h]
        exact maxByTs_mem c0 rest
      · rw [h]
        exact maxByTs_ge c0 rest
      · intro _
        unfold get_latest
        rw [h]
        rfl
      · intro hf
        exact absurd hf (by decide)
    | false =>
      refine ⟨maxByTs c0 rest, ?_, ?_, ?_, ?_, ?_⟩
      · unfold get_latest
        rw [h]
        rfl
      · rw [h]
        exact maxByTs_mem c0 rest
      · rw [h]
        exact maxByTs_ge c0 rest
      · intro ht
        exact absurd ht (by decide)
      · intro _
        unfold get_latest
        rw [h]
        rfl

/-- Witness for C6 on a concrete store holding two checkpoints of
thread `t1` (timestamps 1 and 5), its metadata, and another thread's
checkpoint. -/
theorem get_latest_returns_max_ts_witness :
    ∃ c, (get_latest true 86400 demoRedisStore "t1").1 = some c ∧
      c ∈ threadCheckpoints demoRedisStore "t1" ∧
      (∀ c' ∈ threadCheckpoints demoRedisStore "t1", c'.ts ≤ c.ts) ∧
      (true = true → (get_latest true 86400 demoRedisStore "t1").2 =
        redisExpire (redisExpire demoRedisStore (.ckpt "t1" c.id) 86400) (.meta "t1") 86400) ∧
      (true = false → (get_latest true 86400 demoRedisStore "t1").2 = demoRedisStore) :=
  (get_latest_returns_max_ts true 86400 demoRedisStore "t1").2 demoCkptOld [demoCkptNew]
    (by decide)

/-! ### SSE framing lemmas (C5) -/

theorem nlFree_append {s t : String} (hs : nlFree s) (ht : nlFree t) : nlFree (s ++ t) := by
  unfold nlFree at *
  rw [String.data_append]
  intro h
  rcases List.mem_append.mp h with h1 | h1
  · exact hs h1
  · exact ht h1

theorem digitChar_ne_newline (d : Nat) : Nat.digitChar d ≠ '\n' := by
  by_cases h : d < 16
  · interval_cases d <;> decide
  · have h2 : Nat.digitChar d = '*' := by
      unfold Nat.digitChar
      repeat' rw [if_neg (by omega)]
    rw [h2]
    decide

theorem natDigitsAux_ne_newline : (fuel n : Nat) → ∀ c ∈ natDigitsAux fuel n, c ≠ '\n'
  | 0, n => by
    intro c hc
    exact absurd hc (List.not_mem_nil c)
  | fuel + 1, n => by
    intro c hc
    simp only [natDigitsAux] at hc
    by_cases h : n < 10
    · rw [if_pos h] at hc
      rw [List.mem_singleton.mp hc]
      exact digitChar_ne_newline n
    · rw [if_neg h] at hc
      rcases List.mem_append.mp hc with h1 | h1
      · exact natDigitsAux_ne_newline fuel (n / 10) c h1
      · rw [List.mem_singleton.mp h1]
        exact digitChar_ne_newline (n % 10)

theorem natRepr_nlFree (n : Nat) : nlFree (natRepr n) := by
  intro h
  exact natDigitsAux_ne_newline (n + 1) n '\n' h rfl

theorem intRepr_nlFree (n : Int) : nlFree (intRepr n) := by
  unfold intRepr
  split
  · exact nlFree_append (by decide) (natRepr_nlFree n.natAbs)
  · exact natRepr_nlFree n.natAbs

theorem escapeChar_nlFree (c : Char) : nlFree (escapeChar c) := by
  unfold escapeChar
  split
  · decide
  · split
    · decide
    · split
      · decide
      · split
        · decide
        · split
          · decide
          · rename_i h1 h2 h3 h4 h5
            intro h
            rcases List.mem_singleton.mp h with h6
            exact h3 h6.symm

theorem escapeChars_nlFree : (l : List Char) → nlFree (escapeChars l)
  | [] => by decide
  | c :: cs => nlFree_append (escapeChar_nlFree c) (escapeChars_nlFree cs)

theorem escapeString_nlFree (s : String) : nlFree (escapeString s) :=
  escapeChars_nlFree s.data

mutual

theorem serializePy_nlFree : (v : PyVal) → nlFree (serializePy v)
  | .vStr s =>
    nlFree_append (nlFree_append (by decide) (escapeString_nlFree s)) (by decide)
  | .vInt n => intRepr_nlFree n
  | .vFloat => by decide
  | .vBool true => by decide
  | .vBool false => by decide
  | .vNone => by decide
  | .vList xs =>
    nlFree_append (nlFree_append (by decide) (serializePyList_nlFree xs)) (by decide)
  | .vDict d =>
    nlFree_append (nlFree_append (by decide) (serializePyObj_nlFree d)) (by decide)

theorem serializePyList_nlFree : (l : PyList) → nlFree (serializePyList l)
  | .nil => by decide
  | .cons v .nil => serializePy_nlFree v
  | .cons v (.cons w rest) =>
    nlFree_append (nlFree_append (serializePy_nlFree v) (by decide))
      (serializePyList_nlFree (.cons w rest))

theorem serializePyObj_nlFree : (o : PyObj) → nlFree (serializePyObj o)
  | .nil => by decide
  | .cons k v .nil =>
    nlFree_append
      (nlFree_append (nlFree_append (by decide) (escapeString_nlFree k)) (by decide))
      (serializePy_nlFree v)
  | .cons k v (.cons k2 v2 rest) =>
    nlFree_append
      (nlFree_append
        (nlFree_append
          (nlFree_append (nlFree_append (by decide) (escapeString_nlFree k)) (by decide))
          (serializePy_nlFree v))
        (by decide))
      (serializePyObj_nlFree (.cons k2 v2 rest))

end

/-- C5 counterexample: the `event:` line of a `workflow_start` frame
names the constant `workflow_progress`, not the event's own type. -/
theorem format_sse_event_names_constant_type_counterexample :
    format_sse_event (workflowStartEvent "hotel_o2c" (.vDict PyObj.nil)) =
      "event: workflow_progress\ndata: \x7b\"type\": \"workflow_start\", \"graph_name\": \"hotel_o2c\", \"step\": null, \"state\": \x7b\x7d, \"progress\": null, \"timestamp\": 0\x7d\n\n" ∧
    (workflowStartEvent "hotel_o2c" (.vDict PyObj.nil)).type = "workflow_start" ∧
    ("workflow_progress" : String) ≠ "workflow_start" := by
  refine ⟨by decide, rfl, by decide⟩

/-- C5 (amended): for every workflow event the HTTP frame is exactly an
`event:` line naming the constant stream type `workflow_progress`, a
`data:` line carrying the single-line JSON of the event payload (whose
`type` entry names the event's own type), and a blank line. -/
theorem format_sse_event_frame (e : WorkflowProgressEvent) :
    format_sse_event e =
      "event: workflow_progress\n" ++ "data: " ++
        serializePy (.vDict (eventToDict e)) ++ "\n\n" ∧
    nlFree (serializePy (.vDict (eventToDict e))) ∧
    dictLookup (eventToDict e) "type" = some (.vStr e.type) := by
  refine ⟨rfl, serializePy_nlFree (.vDict (eventToDict e)), rfl⟩

/-! ### Stream-adapter progress lemmas (C4) -/

theorem mem_stepEventsOf {g : String} {total : Option Nat} {st : PyVal} {cur' : Nat}
    {ev : WorkflowProgressEvent} (h : ev ∈ stepEventsOf g total st cur') :
    ∃ v, effectiveCurrentNode st = some v ∧ pyTruthy v = true ∧
      ev = stepCompleteEvent g v st total cur' := by
  unfold stepEventsOf at h
  cases hn : effectiveCurrentNode st with
  | none =>
    rw [hn] at h
    exact absurd h (List.not_mem_nil ev)
  | some v =>
    rw [hn] at h
    have h' : ev ∈ (if pyTruthy v = true then [stepCompleteEvent g v st total cur'] else []) := h
    cases ht : pyTruthy v with
    | true =>
      rw [ht, if_pos rfl] at h'
      exact ⟨v, rfl, ht, List.mem_singleton.mp h'⟩
    | false =>
      rw [ht, if_neg (by decide)] at h'
      exact absurd h' (List.not_mem_nil ev)

theorem type_of_apprEventsOf {g : String} {st : PyVal} {ev : WorkflowProgressEvent}
    (h : ev ∈ apprEventsOf g st) : ev.type = "approval_required" := by
  unfold apprEventsOf at h
  cases hb : optTruthy (pyGet st "pending_approval") with
  | true =>
    rw [hb, if_pos rfl] at h
    rw [List.mem_singleton.mp h]
    rfl
  | false =>
    rw [hb, if_neg (by decide)] at h
    exact absurd h (List.not_mem_nil ev)

theorem nextCur_ge (st : PyVal) (cur : Nat) : cur ≤ nextCur st cur := by
  unfold nextCur
  split <;> omega

theorem nextCur_of_truthy {st : PyVal} (cur : Nat)
    (h : optTruthy (effectiveCurrentNode st) = true) : nextCur st cur = cur + 1 := by
  unfold nextCur
  rw [h, if_pos rfl]

theorem streamLoop_step_complete (g : String) (total : Option Nat) (raised : Option String) :
    (trace : List PyVal) → (cur : Nat) → (last : PyVal) → (ev : WorkflowProgressEvent) →
    ev ∈ streamLoop g total raised trace cur last → ev.type = "step_complete" →
    ∃ k, cur + 1 ≤ k ∧ ev.progress = some (progressPayload total k)
  | [], cur, last, ev, hev, hty => by
    simp only [streamLoop] at hev
    cases hr : raised with
    | some msg =>
      rw [hr] at hev
      have hev' : ev ∈ [workflowExnEvent g msg] := hev
      rw [List.mem_singleton.mp hev'] at hty
      exact absurd (show ("workflow_error" : String) = "step_complete" from hty) (by decide)
    | none =>
      rw [hr] at hev
      have hev' : ev ∈ [workflowCompleteEvent g last total cur] := hev
      rw [List.mem_singleton.mp hev'] at hty
      exact absurd (show ("workflow_complete" : String) = "step_complete" from hty) (by decide)
  | st :: rest, cur, last, ev, hev, hty => by
    simp only [streamLoop] at hev
    rcases List.mem_append.mp hev with h12 | h3
    · rcases List.mem_append.mp h12 with h1 | h2
      · obtain ⟨v, hn, htr, hevEq⟩ := mem_stepEventsOf h1
        refine ⟨nextCur st cur, ?_, ?_⟩
        · have heq : nextCur st cur = cur + 1 := by
            refine nextCur_of_truthy cur ?_
            rw [hn]
            exact htr
          omega
        · rw [hevEq]
          rfl
      · have h4 := type_of_apprEventsOf h2
        rw [h4] at hty
        exact absurd hty (by decide)
    · by_cases herr : errorsNonEmpty st = true
      · rw [if_pos herr] at h3
        rcases List.mem_cons.mp h3 with h4 | h4
        · rw [h4] at hty
          exact absurd (show ("workflow_error" : String) = "step_complete" from hty) (by decide)
        · rcases List.mem_cons.mp h4 with h5 | h5
          · rw [h5] at hty
            exact absurd (show ("workflow_complete" : String) = "step_complete" from hty)
              (by decide)
          · exact absurd h5 (List.not_mem_nil ev)
      · rw [if_neg herr] at h3
        obtain ⟨k, hk, hp⟩ :=
          streamLoop_step_complete g total raised rest (nextCur st cur) st ev h3 hty
        have h6 := nextCur_ge st cur
        exact ⟨k, by omega, hp⟩

/-- C4 counterexample: with `hotel_o2c`'s estimated five steps and ten
completed steps, the tenth `step_complete` event carries percentage 200
— the claimed clamped value would be 100, so the percentage is not
`clamp(100 * completed / estimated, 0, 100)` and does exceed 100. -/
theorem step_complete_percentage_unclamped_counterexample :
    ((stream_workflow_execution "hotel_o2c" (some 5) (.vDict PyObj.nil)
        demoProgressTrace none).get? 10).map (fun e => e.progress) =
      some (some (progressPayload (some 5) 10)) ∧
    calculate_progress_percentage (some 5) 10 = 200 ∧
    min (max ((10 * 100) / 5) 0) 100 = 100 ∧
    (200 : Nat) ≠ 100 := by
  refine ⟨by decide, by decide, by decide, by decide⟩

/-- C4 (amended): every `step_complete` event emitted by the stream
adapter carries the progress payload of its own completed-step count `k`
— with percentage `calculate_progress_percentage`, i.e. the truncated
`100 * k / estimated` without clamping when the estimated step count is
known and nonzero, and `0` when it is unknown (`None` or `0`). -/
theorem step_complete_progress_unclamped (g : String) (total : Option Nat) (init : PyVal)
    (trace : List PyVal) (raised : Option String) (ev : WorkflowProgressEvent)
    (hev : ev ∈ stream_workflow_execution g total init trace raised)
    (hty : ev.type = "step_complete") :
    ∃ k, 1 ≤ k ∧ ev.progress = some (progressPayload total k) := by
  unfold stream_workflow_execution at hev
  rcases List.mem_cons.mp hev with h1 | h1
  · rw [h1] at hty
    exact absurd (show ("workflow_start" : String) = "step_complete" from hty) (by decide)
  · obtain ⟨k, hk, hp⟩ := streamLoop_step_complete g total raised trace 0 init ev h1 hty
    exact ⟨k, by omega, hp⟩

/-- Witness for C4 on a one-state trace: the single `step_complete`
event carries the progress payload for `k = 1`. -/
theorem step_complete_progress_unclamped_witness :
    ∃ k, 1 ≤ k ∧
      (stepCompleteEvent "hotel_o2c" (.vStr "step") demoProgressState (some 5) 1).progress =
        some (progressPayload (some 5) k) :=
  step_complete_progress_unclamped "hotel_o2c" (some 5) (.vDict PyObj.nil)
    demoProgressTrace1 none
    (stepCompleteEvent "hotel_o2c" (.vStr "step") demoProgressState (some 5) 1)
    (by decide) rfl

end ERPNextWorkflows
